import Mathlib

/-
Shallow embedding of the faker-file repository (fake-file generation
library).  The providers present under src/ (ico_file.py, svg_file.py,
jpeg_file.py, webp_file.py, ods_file.py) are translated line by line.
Parts of the repository that the claims need but that are not shipped
under src/ (the storage backends, the FileMixin text helpers, the
ZIP/TAR/EML container providers, the MP3/PDF providers and the
load_class_from_path helper) are modelled from the spec; every such
definition carries a doc comment starting with "Modelled from the spec".
External libraries (imgkit, tablib, the faker text and json generators,
the zipfile/tarfile packers, the pdf/mp3 rendering backends) are passed
in as explicit function arguments: the code under verification only
moves their outputs around.
-/

namespace FakerFile

/-- File contents: an abstract byte string. -/
abbrev Bytes := List Nat

/-- A generated file name, kept structured (root directory, relative
directory, basename, extension) instead of a flat path string; the
Python code builds its path strings from exactly these pieces. -/
structure GenName where
  root : String
  rel : String
  base : String
  ext : String
deriving DecidableEq

/-- A path relative to a storage root, as returned to the caller by
`storage.relpath(filename)` / `os.path.relpath(file_name, root_path)`. -/
structure RelPath where
  rel : String
  base : String
  ext : String
deriving DecidableEq

/-- Drop the root component of a generated name. -/
def GenName.relpath (n : GenName) : RelPath :=
  ⟨n.rel, n.base, n.ext⟩

/-- A flat file table: association list from file name to contents. -/
abbrev FileTable := List (GenName × Bytes)

/-- Look a file up in a file table. -/
def tget : FileTable → GenName → Option Bytes
  | [], _ => none
  | (k, b) :: rest, n => if k = n then some b else tget rest n

/-- Remove a file from a file table (`os.remove`). -/
def tremove (t : FileTable) (n : GenName) : FileTable :=
  t.filter (fun e => decide (e.fst ≠ n))

/-- Write a file into a file table, overwriting any previous entry. -/
def twrite (t : FileTable) (n : GenName) (b : Bytes) : FileTable :=
  (n, b) :: tremove t n

/-- Modelled from the spec: the repository offers several storage
backends (local filesystem `FileSystemStorage`, cloud-like
`PathyFileSystemStorage`); the storages package is not under src/. -/
inductive StorageKind where
  | fileSystem
  | pathyFileSystem
deriving DecidableEq

/-- Modelled from the spec: a storage backend is identified by its kind,
its root path and its relative path (see the FileSystemStorage usage
examples in the provider docstrings under src/). -/
structure BaseStorage where
  kind : StorageKind
  rootPath : String
  relPath : String
deriving DecidableEq

/-- Modelled from the spec: the default `FileSystemStorage()` a provider
falls back to when no storage is given (provider docstrings: "Storage.
Defaults to FileSystemStorage."). -/
def defaultFileSystemStorage : BaseStorage :=
  ⟨StorageKind.fileSystem, "tempdir", "tmp"⟩

/-- Modelled from the spec: `storage.generate_filename(prefix=...,
extension=...)` produces a fresh name under the backend root carrying
the provider's declared extension; the fresh uniqueness token (a uuid in
the real code) is passed in as `nonce`. -/
def BaseStorage.generateFilename (s : BaseStorage) (pfx : Option String)
    (ext : String) (nonce : Nat) : GenName :=
  ⟨s.rootPath, s.relPath, pfx.getD "tmp" ++ toString nonce, ext⟩

/-- Modelled from the spec: `storage.generate_temporary_local_filename`
produces a name in the local temporary directory, outside any backend. -/
def BaseStorage.generateTemporaryLocalFilename (_s : BaseStorage)
    (pfx : Option String) (ext : String) (nonce : Nat) : GenName :=
  ⟨"localtmp", "", pfx.getD "tmp" ++ toString nonce, ext⟩

/-- The observable system state: the local temporary directory, the file
tables of the storage backends, the plain local filesystem that
`ods_file` writes into with `open()`, the PRNG state of the module-level
`FAKER` instance of ods_file.py (line 16), and a counter of provider
invocations used for resource accounting. -/
structure State where
  tmp : FileTable
  backends : List (BaseStorage × FileTable)
  localFS : FileTable
  fakerSeed : Nat
  invocations : Nat

/-- Look up the file table of one backend. -/
def bget : List (BaseStorage × FileTable) → BaseStorage → FileTable
  | [], _ => []
  | (s, t) :: rest, q => if s = q then t else bget rest q

/-- Write one file into one backend's table. -/
def bwrite (l : List (BaseStorage × FileTable)) (s : BaseStorage)
    (n : GenName) (b : Bytes) : List (BaseStorage × FileTable) :=
  (s, twrite (bget l s) n b) :: l.filter (fun e => decide (e.fst ≠ s))

/-- The file table of backend `s` in state `st`. -/
def State.backendTable (st : State) (s : BaseStorage) : FileTable :=
  bget st.backends s

/-- `storage.write_bytes(filename, bytes)`: persist bytes through the
chosen backend. -/
def State.writeBytes (st : State) (s : BaseStorage) (n : GenName)
    (b : Bytes) : State :=
  { st with backends := bwrite st.backends s n b }

/-- `storage.exists(relative_path)`: does the backend hold a file whose
relative path is `p`? -/
def State.existsRel (st : State) (s : BaseStorage) (p : RelPath) : Bool :=
  (st.backendTable s).any (fun e => decide (e.fst.relpath = p))

/-- The `StringValue` artifact: a relative path (a `str` subclass in
Python) with the provenance dictionary `.data` attached; the providers
under src/ store the generated content under `data["content"]`. -/
structure StringValue where
  path : RelPath
  data : String
deriving DecidableEq

/-- A provider call returns either a `StringValue` (relative path of the
saved file) or a `BytesValue` (binary content of the file). -/
inductive FileValue where
  | str (v : StringValue)
  | bytes (b : Bytes)

/-- Is the artifact a `BytesValue`? (`isinstance(_bytes, bytes)` in the
tests; `StringValue` is a `str` subclass, not a `bytes` one.) -/
def FileValue.isBytes : FileValue → Bool
  | .str _ => false
  | .bytes _ => true

/-- Modelled from the spec: `FileMixin._generate_text_content` (base.py
is not under src/): the explicit `content` is used when given, otherwise
random text of at most `max_nb_chars` characters is drawn from the
provider's faker instance (`randomText`), wrapped after
`wrap_chars_after` characters. -/
def generateTextContent (maxNbChars : Nat) (wrap : Option Nat)
    (contentOpt : Option String)
    (randomText : Nat → Option Nat → String) : String :=
  match contentOpt with
  | some c => c
  | none => randomText maxNbChars wrap

/-- Declared extension of the ICO provider (ico_file.py line 52). -/
def IcoFileProvider.extension : String := "ico"

/-- Declared extension of the SVG provider (svg_file.py line 53). -/
def SvgFileProvider.extension : String := "svg"

/-- Declared extension of the ODS provider (ods_file.py line 45). -/
def OdsFileProvider.extension : String := "ods"

/-- Declared extension of the JPEG provider (jpeg_file.py line 57). -/
def JpegFileProvider.extension : String := "jpg"

/-- Declared extension of the WEBP provider (webp_file.py line 50). -/
def WebpFileProvider.extension : String := "webp"

/-- `IcoFileProvider.ico_file` (ico_file.py lines 54-105), translated
step by step: default the storage, generate the final and the temporary
file names, build the content, render it with imgkit into the temporary
file, copy the temporary file's bytes into the storage backend, remove
the temporary file, and return the relative path with the content
attached as provenance.  `kwargsRaw` stands for a `raw=...` keyword
absorbed by `**kwargs`: the body never reads it. -/
def icoFile (storageOpt : Option BaseStorage) (pfx : Option String)
    (maxNbChars : Nat) (wrap : Option Nat) (contentOpt : Option String)
    (kwargsRaw : Bool) (nonce : Nat)
    (randomText : Nat → Option Nat → String) (render : String → Bytes)
    (st : State) : StringValue × State :=
  let _ := kwargsRaw
  let storage := storageOpt.getD defaultFileSystemStorage
  let filename := storage.generateFilename pfx IcoFileProvider.extension nonce
  let tmpFilename :=
    storage.generateTemporaryLocalFilename pfx IcoFileProvider.extension nonce
  let content := generateTextContent maxNbChars wrap contentOpt randomText
  let rendered := render ("<pre>" ++ content ++ "</pre>")
  let st1 := { st with tmp := twrite st.tmp tmpFilename rendered }
  let fileBytes := (tget st1.tmp tmpFilename).getD []
  let st2 := st1.writeBytes storage filename fileBytes
  let st3 := { st2 with tmp := tremove st2.tmp tmpFilename }
  (⟨filename.relpath, content⟩, st3)

/-- `SvgFileProvider.svg_file` (svg_file.py lines 55-107): identical to
`ico_file` up to the declared extension. -/
def svgFile (storageOpt : Option BaseStorage) (pfx : Option String)
    (maxNbChars : Nat) (wrap : Option Nat) (contentOpt : Option String)
    (kwargsRaw : Bool) (nonce : Nat)
    (randomText : Nat → Option Nat → String) (render : String → Bytes)
    (st : State) : StringValue × State :=
  let _ := kwargsRaw
  let storage := storageOpt.getD defaultFileSystemStorage
  let filename := storage.generateFilename pfx SvgFileProvider.extension nonce
  let tmpFilename :=
    storage.generateTemporaryLocalFilename pfx SvgFileProvider.extension nonce
  let content := generateTextContent maxNbChars wrap contentOpt randomText
  let rendered := render ("<pre>" ++ content ++ "</pre>")
  let st1 := { st with tmp := twrite st.tmp tmpFilename rendered }
  let fileBytes := (tget st1.tmp tmpFilename).getD []
  let st2 := st1.writeBytes storage filename fileBytes
  let st3 := { st2 with tmp := tremove st2.tmp tmpFilename }
  (⟨filename.relpath, content⟩, st3)

/-- Modelled from the spec: `FileMixin._generate_filename(root_path,
rel_path, prefix)` (base.py is not under src/): a fresh name under
`root_path` (defaulting to the temporary directory) and `rel_path`,
carrying the provider's declared extension. -/
def generateFilenameLocal (rootPathOpt : Option String) (relPath : String)
    (pfx : Option String) (ext : String) (nonce : Nat) : GenName :=
  ⟨rootPathOpt.getD "tempdir", relPath, pfx.getD "tmp" ++ toString nonce, ext⟩

/-- Default relative path `DEFAULT_REL_PATH = "tmp"` (base.py, imported
by the tests; modelled from the spec since base.py is not under src/). -/
def DEFAULT_REL_PATH : String := "tmp"

/-- The default data columns of `ods_file` (ods_file.py lines 86-89):
name maps to the template for a person name and residency to the
template for an address. -/
def defaultDataColumns : List (String × String) :=
  [("name", "\x7b\x7bname\x7d\x7d"), ("residency", "\x7b\x7baddress\x7d\x7d")]

/-- `OdsFileProvider.ods_file` (ods_file.py lines 47-107), translated
step by step.  The provider takes `root_path`/`rel_path` rather than a
storage backend; `kwargsStorage` stands for a `storage=...` keyword
absorbed by `**kwargs`: the body never reads it.  When `content` is
`None` the content is produced by the module-level shared `FAKER`
instance (`FAKER.json`, modelled by `jsonFn` applied to the shared PRNG
state, which each use advances); `data_columns` falls back to the
default columns whenever it is falsy (absent or an empty dict).  The
content is loaded and exported by tablib (`odsExport`) and written to
the local filesystem with a plain `open()`. -/
def odsFile (rootPathOpt : Option String) (relPath : String)
    (pfx : Option String) (dataColumnsOpt : Option (List (String × String)))
    (numRows : Nat) (contentOpt : Option String)
    (kwargsStorage : Option BaseStorage) (nonce : Nat)
    (jsonFn : Nat → List (String × String) → Nat → String)
    (odsExport : String → Bytes) (st : State) : StringValue × State :=
  let _ := kwargsStorage
  let fileName :=
    generateFilenameLocal rootPathOpt relPath pfx OdsFileProvider.extension nonce
  let contentAndState : String × State :=
    match contentOpt with
    | some c => (c, st)
    | none =>
        let cols :=
          match dataColumnsOpt with
          | none => defaultDataColumns
          | some l => if l = [] then defaultDataColumns else l
        (jsonFn st.fakerSeed cols numRows,
          { st with fakerSeed := st.fakerSeed + 1 })
  let content := contentAndState.fst
  let st1 := contentAndState.snd
  let fileBytes := odsExport content
  let st2 := { st1 with localFS := twrite st1.localFS fileName fileBytes }
  (⟨fileName.relpath, content⟩, st2)

/-- Does the plain local filesystem of `st` hold a file whose relative
path (from the given root) is `p`? -/
def State.localExistsRel (st : State) (p : RelPath) : Bool :=
  st.localFS.any (fun e => decide (e.fst.relpath = p))

/-- Modelled from the spec: `ImageMixin._image_file` (the mixins package
is not under src/), the shared body of `jpeg_file` and `webp_file`:
default the storage, generate a name with the declared extension, build
the content, render it; with `raw=True` return the binary content as a
`BytesValue`, otherwise persist it through the backend and return the
relative path as a `StringValue` with the content attached. -/
def imageFile (ext : String) (storageOpt : Option BaseStorage)
    (pfx : Option String) (maxNbChars : Nat) (wrap : Option Nat)
    (contentOpt : Option String) (raw : Bool) (nonce : Nat)
    (randomText : Nat → Option Nat → String) (render : String → Bytes)
    (st : State) : FileValue × State :=
  let storage := storageOpt.getD defaultFileSystemStorage
  let filename := storage.generateFilename pfx ext nonce
  let content := generateTextContent maxNbChars wrap contentOpt randomText
  let rendered := render content
  if raw then (FileValue.bytes rendered, st)
  else
    let st1 := st.writeBytes storage filename rendered
    (FileValue.str ⟨filename.relpath, content⟩, st1)

/-- `JpegFileProvider.jpeg_file` (jpeg_file.py lines 92-134): delegates
to the image mixin with the declared extension `jpg`. -/
def jpegFile (storageOpt : Option BaseStorage) (pfx : Option String)
    (maxNbChars : Nat) (wrap : Option Nat) (contentOpt : Option String)
    (raw : Bool) (nonce : Nat) (randomText : Nat → Option Nat → String)
    (render : String → Bytes) (st : State) : FileValue × State :=
  imageFile JpegFileProvider.extension storageOpt pfx maxNbChars wrap
    contentOpt raw nonce randomText render st

/-- `WebpFileProvider.webp_file` (webp_file.py lines 52-79): delegates
to the image mixin with the declared extension `webp`; it declares no
`raw` parameter of its own but forwards `**kwargs` (including a `raw`
keyword, `False` when the caller does not pass one) into the mixin. -/
def webpFile (storageOpt : Option BaseStorage) (pfx : Option String)
    (maxNbChars : Nat) (wrap : Option Nat) (contentOpt : Option String)
    (raw : Bool) (nonce : Nat) (randomText : Nat → Option Nat → String)
    (render : String → Bytes) (st : State) : FileValue × State :=
  imageFile WebpFileProvider.extension storageOpt pfx maxNbChars wrap
    contentOpt raw nonce randomText render st

/-- The artifact produced by a full `ico_file` call, as the raw test
(`test_raw_standalone_providers`) observes it: `ico_file` always builds
a `StringValue`, whatever keywords `**kwargs` absorbed. -/
def icoCallArtifact (storageOpt : Option BaseStorage) (pfx : Option String)
    (maxNbChars : Nat) (wrap : Option Nat) (contentOpt : Option String)
    (kwargsRaw : Bool) (nonce : Nat)
    (randomText : Nat → Option Nat → String) (render : String → Bytes)
    (st : State) : FileValue :=
  FileValue.str
    (icoFile storageOpt pfx maxNbChars wrap contentOpt kwargsRaw nonce
      randomText render st).fst

/-- Modelled from the spec: the inner-file functions that populate the
container providers (the providers.helpers.inner module is not under
src/).  A `simple` node stands for any plain provider function such as
`create_inner_txt_file` or `create_inner_docx_file` (identified by the
extension it produces); `zipInner`/`tarInner` are the recursive
`create_inner_zip_file`/`create_inner_tar_file` functions populating a
nested archive with `count` inner files; `listOf` is
`list_create_inner_file` over an arbitrary list of inner functions; and
`fuzzyChoice` is `fuzzy_choice_create_inner_file`, whose randomized
selection among the candidate functions is modelled by the sampled
index `pick`. -/
inductive InnerFn where
  | simple (ext : String)
  | zipInner (count : Nat) (inner : InnerFn)
  | tarInner (count : Nat) (inner : InnerFn)
  | listOf (fns : List InnerFn)
  | fuzzyChoice (pick : Nat) (choices : List InnerFn)

/-- Fresh name for the `ctr`-th inner file of an archive run. -/
def innerFileName (ctr : Nat) (ext : String) : GenName :=
  ⟨"tempdir", DEFAULT_REL_PATH, "inner" ++ toString ctr, ext⟩

/-- Model contents of the `ctr`-th inner file produced by a simple
provider: kept abstract up to distinctness of the counter. -/
def innerFileBytes (ctr : Nat) : Bytes := [ctr]

mutual

/-- Modelled from the spec: run one inner-file function, returning the
archive entries it contributes, the advanced fresh-name counter and the
new state; every provider invocation bumps the invocation counter.
`zipLib`/`tarLib` are the external archive packers. -/
def runInner (zipLib tarLib : List (GenName × Bytes) → Bytes) :
    InnerFn → Nat → State → List (GenName × Bytes) × Nat × State
  | .simple ext, ctr, st =>
      ([(innerFileName ctr ext, innerFileBytes ctr)], ctr + 1,
        { st with invocations := st.invocations + 1 })
  | .zipInner count inner, ctr, st =>
      let r := runInnerTimes zipLib tarLib inner count (ctr + 1)
        { st with invocations := st.invocations + 1 }
      ([(innerFileName ctr "zip", zipLib r.fst)], r.snd.fst, r.snd.snd)
  | .tarInner count inner, ctr, st =>
      let r := runInnerTimes zipLib tarLib inner count (ctr + 1)
        { st with invocations := st.invocations + 1 }
      ([(innerFileName ctr "tar", tarLib r.fst)], r.snd.fst, r.snd.snd)
  | .listOf fns, ctr, st => runInnerList zipLib tarLib fns ctr st
  | .fuzzyChoice pick choices, ctr, st =>
      match pick, choices with
      | _, [] => ([], ctr, st)
      | 0, c :: _ => runInner zipLib tarLib c ctr st
      | p + 1, _ :: rest => runInner zipLib tarLib (.fuzzyChoice p rest) ctr st

/-- Modelled from the spec: invoke one inner-file function `n` times
(the `count` option of an archive), concatenating the entries. -/
def runInnerTimes (zipLib tarLib : List (GenName × Bytes) → Bytes) :
    InnerFn → Nat → Nat → State → List (GenName × Bytes) × Nat × State
  | _, 0, ctr, st => ([], ctr, st)
  | fn, n + 1, ctr, st =>
      let r1 := runInner zipLib tarLib fn ctr st
      let r2 := runInnerTimes zipLib tarLib fn n r1.snd.fst r1.snd.snd
      (r1.fst ++ r2.fst, r2.snd.fst, r2.snd.snd)

/-- Modelled from the spec: `list_create_inner_file`, invoking every
function of the list once, in order. -/
def runInnerList (zipLib tarLib : List (GenName × Bytes) → Bytes) :
    List InnerFn → Nat → State → List (GenName × Bytes) × Nat × State
  | [], ctr, st => ([], ctr, st)
  | fn :: rest, ctr, st =>
      let r1 := runInner zipLib tarLib fn ctr st
      let r2 := runInnerList zipLib tarLib rest r1.snd.fst r1.snd.snd
      (r1.fst ++ r2.fst, r2.snd.fst, r2.snd.snd)

end

mutual

/-- Number of provider invocations one inner-file function performs:
the bound that settles the recursion of the archive population. -/
def innerCost : InnerFn → Nat
  | .simple _ => 1
  | .zipInner count inner => 1 + count * innerCost inner
  | .tarInner count inner => 1 + count * innerCost inner
  | .listOf fns => innerCostList fns
  | .fuzzyChoice pick choices =>
      match pick, choices with
      | _, [] => 0
      | 0, c :: _ => innerCost c
      | p + 1, _ :: rest => innerCost (.fuzzyChoice p rest)

/-- Total invocation count of a list of inner-file functions. -/
def innerCostList : List InnerFn → Nat
  | [] => 0
  | fn :: rest => innerCost fn + innerCostList rest

end

/-- The options dictionary of an archive provider: how many inner files
to create and with which inner-file function. -/
structure ArchiveOptions where
  count : Nat
  innerFn : InnerFn

/-- Modelled from the spec: the common body of the container providers
(zip_file.py, tar_file.py and eml_file.py are not under src/): invoke
the configured inner-file function `count` times, pack the produced
inner files into one container with the external packer `pack`, persist
the container through the chosen storage backend and return its
relative path. -/
def containerFile (ext : String) (pack : List (GenName × Bytes) → Bytes)
    (zipLib tarLib : List (GenName × Bytes) → Bytes)
    (storageOpt : Option BaseStorage) (pfx : Option String)
    (opts : ArchiveOptions) (nonce : Nat) (st : State) :
    StringValue × State :=
  let storage := storageOpt.getD defaultFileSystemStorage
  let filename := storage.generateFilename pfx ext nonce
  let r := runInnerTimes zipLib tarLib opts.innerFn opts.count 0 st
  let archiveBytes := pack r.fst
  let st1 := r.snd.snd.writeBytes storage filename archiveBytes
  (⟨filename.relpath, ""⟩, st1)

/-- Modelled from the spec: `ZipFileProvider.zip_file`. -/
def zipFile (zipLib tarLib : List (GenName × Bytes) → Bytes)
    (storageOpt : Option BaseStorage) (pfx : Option String)
    (opts : ArchiveOptions) (nonce : Nat) (st : State) :
    StringValue × State :=
  containerFile "zip" zipLib zipLib tarLib storageOpt pfx opts nonce st

/-- Modelled from the spec: `TarFileProvider.tar_file`. -/
def tarFile (zipLib tarLib : List (GenName × Bytes) → Bytes)
    (storageOpt : Option BaseStorage) (pfx : Option String)
    (opts : ArchiveOptions) (nonce : Nat) (st : State) :
    StringValue × State :=
  containerFile "tar" tarLib zipLib tarLib storageOpt pfx opts nonce st

/-- Modelled from the spec: `EmlFileProvider.eml_file`, packing the
inner files as attachments of an email (`emlLib` is the external email
builder). -/
def emlFile (emlLib zipLib tarLib : List (GenName × Bytes) → Bytes)
    (storageOpt : Option BaseStorage) (pfx : Option String)
    (opts : ArchiveOptions) (nonce : Nat) (st : State) :
    StringValue × State :=
  containerFile "eml" emlLib zipLib tarLib storageOpt pfx opts nonce st

/-- The library's own error cases, together with the pass-through case
for exceptions of the underlying converter libraries. -/
inductive FakerFileError where
  | notImplemented
  | importError (msg : String)
  | external (msg : String)
deriving DecidableEq

/-- Modelled from the spec: `load_class_from_path` (helpers.py is not
under src/): resolve a dotted-path string against the importable
classes; a path that does not exist, names a non-class, or whose module
fails to import is absent from the registry and raises ImportError. -/
def load_class_from_path {α : Type} (reg : List (String × α))
    (path : String) : Except String α :=
  match reg with
  | [] => Except.error ("cannot import " ++ path)
  | (p, c) :: rest =>
      if p = path then Except.ok c else load_class_from_path rest path

/-- Modelled from the spec: a PDF generator backend class: whether it is
the abstract `BasePdfGenerator` (or a subclass that does not override
generation), and the byte-production the concrete backend performs. -/
structure PdfGenerator where
  isAbstract : Bool
  generate : String → Bytes

/-- Modelled from the spec: an MP3 generator backend class; concrete
generation may fail with an exception of the underlying text-to-speech
library, reported in the `Except` error component. -/
structure Mp3Generator where
  isAbstract : Bool
  generate : String → Except String Bytes

/-- Resolve a generator selector: either a class object used directly,
or a dotted-path string resolved through `load_class_from_path`. -/
def resolveGenerator {α : Type} (reg : List (String × α))
    (sel : α ⊕ String) : Except FakerFileError α :=
  match sel with
  | Sum.inl c => Except.ok c
  | Sum.inr p =>
      match load_class_from_path reg p with
      | Except.ok c => Except.ok c
      | Except.error m => Except.error (FakerFileError.importError m)

/-- Modelled from the spec: `PdfFileProvider.pdf_file` (the pdf_file
provider package is only partially under src/): resolve the pluggable
generator class (by name or direct reference), raise NotImplementedError
on an abstract base generator, otherwise let the backend produce the
bytes, persist them through the chosen backend and return the relative
path. -/
def pdfFile (reg : List (String × PdfGenerator)) (sel : PdfGenerator ⊕ String)
    (storageOpt : Option BaseStorage) (pfx : Option String)
    (maxNbChars : Nat) (wrap : Option Nat) (contentOpt : Option String)
    (nonce : Nat) (randomText : Nat → Option Nat → String) (st : State) :
    Except FakerFileError (StringValue × State) :=
  match resolveGenerator reg sel with
  | Except.error e => Except.error e
  | Except.ok cls =>
      if cls.isAbstract then Except.error FakerFileError.notImplemented
      else
        let storage := storageOpt.getD defaultFileSystemStorage
        let filename := storage.generateFilename pfx "pdf" nonce
        let content := generateTextContent maxNbChars wrap contentOpt randomText
        let fileBytes := cls.generate content
        let st1 := st.writeBytes storage filename fileBytes
        Except.ok (⟨filename.relpath, content⟩, st1)

/-- Modelled from the spec: `Mp3FileProvider.mp3_file`: resolve the
pluggable generator class, raise NotImplementedError on an abstract base
generator, run the backend once and propagate its exception unchanged
(no retry, no partial-failure handling), otherwise persist the bytes and
return the relative path. -/
def mp3File (reg : List (String × Mp3Generator)) (sel : Mp3Generator ⊕ String)
    (storageOpt : Option BaseStorage) (pfx : Option String)
    (maxNbChars : Nat) (wrap : Option Nat) (contentOpt : Option String)
    (nonce : Nat) (randomText : Nat → Option Nat → String) (st : State) :
    Except FakerFileError (StringValue × State) :=
  match resolveGenerator reg sel with
  | Except.error e => Except.error e
  | Except.ok cls =>
      if cls.isAbstract then Except.error FakerFileError.notImplemented
      else
        let storage := storageOpt.getD defaultFileSystemStorage
        let filename := storage.generateFilename pfx "mp3" nonce
        let content := generateTextContent maxNbChars wrap contentOpt randomText
        match cls.generate content with
        | Except.error e => Except.error (FakerFileError.external e)
        | Except.ok fileBytes =>
            let st1 := st.writeBytes storage filename fileBytes
            Except.ok (⟨filename.relpath, content⟩, st1)

/-- An empty initial system state, used to evaluate concrete runs. -/
def st0 : State := ⟨[], [], [], 0, 0⟩

/-- A concrete cloud-like storage backend, standing for the
`PathyFileSystemStorage(bucket_name="tmp", rel_path="tmp")` instance the
tests select. -/
def pathyStorage : BaseStorage :=
  ⟨StorageKind.pathyFileSystem, "buckettmp", "tmp"⟩

/-- A concrete model of the external `FAKER.json` content generation:
the produced JSON depends on the PRNG state it is drawn from. -/
def jsonModel : Nat → List (String × String) → Nat → String :=
  fun seed _ _ => "json" ++ toString seed

/-- A concrete `ods_file` call with all options at their defaults, as a
function of the state it runs in. -/
def odsDefaultRun (st : State) : StringValue × State :=
  odsFile none DEFAULT_REL_PATH none none 10 none none 0 jsonModel
    (fun _ => [1]) st

/-- A concrete PDF generator backend class. -/
def pdfGenModel : PdfGenerator := ⟨false, fun _ => [2]⟩

/-- A concrete registry of importable PDF generator classes. -/
def pdfRegModel : List (String × PdfGenerator) := [("pkg.Gen", pdfGenModel)]

/-- A concrete MP3 generator backend class. -/
def mp3GenModel : Mp3Generator := ⟨false, fun _ => Except.ok [3]⟩

/-- A concrete registry of importable MP3 generator classes. -/
def mp3RegModel : List (String × Mp3Generator) := [("pkg.Gen", mp3GenModel)]

/-- An abstract base MP3 generator class (does not override generation). -/
def mp3BaseModel : Mp3Generator := ⟨true, fun _ => Except.ok []⟩

/-- An abstract base PDF generator class (does not override generation). -/
def pdfBaseModel : PdfGenerator := ⟨true, fun _ => []⟩

/-- A concrete MP3 generator whose underlying text-to-speech library
raises. -/
def mp3FailModel : Mp3Generator := ⟨false, fun _ => Except.error "gtts boom"⟩

theorem tget_twrite_self (t : FileTable) (n : GenName) (b : Bytes) :
    tget (twrite t n b) n = some b := by
  simp [twrite, tget]

theorem tremove_twrite_self (t : FileTable) (n : GenName) (b : Bytes) :
    tremove (twrite t n b) n = tremove t n := by
  simp [twrite, tremove, List.filter_cons, List.filter_filter]

theorem tget_tremove_self (t : FileTable) (n : GenName) :
    tget (tremove t n) n = none := by
  induction t with
  | nil => rfl
  | cons e rest ih =>
      by_cases h : e.fst = n
      · simpa [tremove, List.filter_cons, h] using ih
      · simpa [tremove, List.filter_cons, h, tget] using ih

theorem bget_bwrite_self (l : List (BaseStorage × FileTable))
    (s : BaseStorage) (n : GenName) (b : Bytes) :
    bget (bwrite l s n b) s = twrite (bget l s) n b := by
  simp [bwrite, bget]

theorem existsRel_writeBytes_self (st : State) (s : BaseStorage)
    (n : GenName) (b : Bytes) :
    (st.writeBytes s n b).existsRel s n.relpath = true := by
  simp [State.existsRel, State.writeBytes, State.backendTable,
    bget_bwrite_self, twrite, List.any_cons]

/-- Claim C9: for every successful `ico_file` or `svg_file` call, the
temporary local file used for rendering is removed before the call
returns: the temporary directory afterwards is exactly the one before
with that file removed (in particular the file is gone), and the plain
local filesystem is untouched — only the file written through the
storage backend persists. -/
theorem claim_C9_tmp_cleanup :
    (∀ (storageOpt : Option BaseStorage) (pfx : Option String)
        (maxNbChars : Nat) (wrap : Option Nat) (contentOpt : Option String)
        (kwargsRaw : Bool) (nonce : Nat)
        (randomText : Nat → Option Nat → String) (render : String → Bytes)
        (st : State),
      (icoFile storageOpt pfx maxNbChars wrap contentOpt kwargsRaw nonce
          randomText render st).snd.tmp =
        tremove st.tmp
          ((storageOpt.getD defaultFileSystemStorage).generateTemporaryLocalFilename
            pfx IcoFileProvider.extension nonce) ∧
      tget (icoFile storageOpt pfx maxNbChars wrap contentOpt kwargsRaw nonce
          randomText render st).snd.tmp
        ((storageOpt.getD defaultFileSystemStorage).generateTemporaryLocalFilename
          pfx IcoFileProvider.extension nonce) = none ∧
      (icoFile storageOpt pfx maxNbChars wrap contentOpt kwargsRaw nonce
          randomText render st).snd.localFS = st.localFS) ∧
    (∀ (storageOpt : Option BaseStorage) (pfx : Option String)
        (maxNbChars : Nat) (wrap : Option Nat) (contentOpt : Option String)
        (kwargsRaw : Bool) (nonce : Nat)
        (randomText : Nat → Option Nat → String) (render : String → Bytes)
        (st : State),
      (svgFile storageOpt pfx maxNbChars wrap contentOpt kwargsRaw nonce
          randomText render st).snd.tmp =
        tremove st.tmp
          ((storageOpt.getD defaultFileSystemStorage).generateTemporaryLocalFilename
            pfx SvgFileProvider.extension nonce) ∧
      tget (svgFile storageOpt pfx maxNbChars wrap contentOpt kwargsRaw nonce
          randomText render st).snd.tmp
        ((storageOpt.getD defaultFileSystemStorage).generateTemporaryLocalFilename
          pfx SvgFileProvider.extension nonce) = none ∧
      (svgFile storageOpt pfx maxNbChars wrap contentOpt kwargsRaw nonce
          randomText render st).snd.localFS = st.localFS) := by
  constructor <;>
    · intro storageOpt pfx maxNbChars wrap contentOpt kwargsRaw nonce
        randomText render st
      refine ⟨?_, ?_, ?_⟩ <;>
        simp [icoFile, svgFile, State.writeBytes, tremove_twrite_self,
          tget_tremove_self]

/-- Claim C5 counterexample: the claim says every provider method accepts a
storage argument and in all cases persists the generated bytes through
the chosen backend so that the returned path exists in that same
backend.  At this concrete input — the `ods_file` call the test suite
issues with the `PathyFileSystemStorage` backend selected — the chosen
backend does not contain the returned path after the call: `ods_file`
absorbs the storage keyword in `**kwargs` and writes through a plain
`open()` instead. -/
theorem claim_C5_counterexample :
    (odsFile none DEFAULT_REL_PATH none none 10 none (some pathyStorage) 0
        jsonModel (fun _ => [1]) st0).snd.existsRel pathyStorage
      (odsFile none DEFAULT_REL_PATH none none 10 none (some pathyStorage) 0
        jsonModel (fun _ => [1]) st0).fst.path = false := by
  decide

/-- Claim C5 amended: every provider method that takes a storage parameter
(`ico_file`, `svg_file`, and the image-mixin providers `jpeg_file` and
`webp_file`) defaults it to `FileSystemStorage` when it is `None`, and,
when not asked for raw bytes, persists the generated bytes through the
chosen backend, so the returned relative path exists in that same
backend after the call; `ods_file` is the exception: any storage keyword
it receives has no effect on the call, no storage backend is touched,
and the generated bytes are written directly to the local filesystem,
where the returned path exists. -/
theorem claim_C5_storage_amended :
    (∀ (pfx : Option String) (maxNbChars : Nat) (wrap : Option Nat)
        (contentOpt : Option String) (kwargsRaw : Bool) (nonce : Nat)
        (randomText : Nat → Option Nat → String) (render : String → Bytes)
        (st : State),
      icoFile none pfx maxNbChars wrap contentOpt kwargsRaw nonce
          randomText render st =
        icoFile (some defaultFileSystemStorage) pfx maxNbChars wrap
          contentOpt kwargsRaw nonce randomText render st ∧
      svgFile none pfx maxNbChars wrap contentOpt kwargsRaw nonce
          randomText render st =
        svgFile (some defaultFileSystemStorage) pfx maxNbChars wrap
          contentOpt kwargsRaw nonce randomText render st ∧
      jpegFile none pfx maxNbChars wrap contentOpt kwargsRaw nonce
          randomText render st =
        jpegFile (some defaultFileSystemStorage) pfx maxNbChars wrap
          contentOpt kwargsRaw nonce randomText render st ∧
      webpFile none pfx maxNbChars wrap contentOpt kwargsRaw nonce
          randomText render st =
        webpFile (some defaultFileSystemStorage) pfx maxNbChars wrap
          contentOpt kwargsRaw nonce randomText render st) ∧
    (∀ (storage : BaseStorage) (pfx : Option String) (maxNbChars : Nat)
        (wrap : Option Nat) (contentOpt : Option String) (nonce : Nat)
        (randomText : Nat → Option Nat → String) (render : String → Bytes)
        (st : State),
      (jpegFile (some storage) pfx maxNbChars wrap contentOpt false nonce
          randomText render st).snd.existsRel storage
        ((storage.generateFilename pfx JpegFileProvider.extension
          nonce).relpath) = true ∧
      (webpFile (some storage) pfx maxNbChars wrap contentOpt false nonce
          randomText render st).snd.existsRel storage
        ((storage.generateFilename pfx WebpFileProvider.extension
          nonce).relpath) = true) ∧
    (∀ (storage : BaseStorage) (pfx : Option String) (maxNbChars : Nat)
        (wrap : Option Nat) (contentOpt : Option String) (kwargsRaw : Bool)
        (nonce : Nat) (randomText : Nat → Option Nat → String)
        (render : String → Bytes) (st : State),
      (icoFile (some storage) pfx maxNbChars wrap contentOpt kwargsRaw nonce
          randomText render st).snd.existsRel storage
        (icoFile (some storage) pfx maxNbChars wrap contentOpt kwargsRaw nonce
          randomText render st).fst.path = true ∧
      (svgFile (some storage) pfx maxNbChars wrap contentOpt kwargsRaw nonce
          randomText render st).snd.existsRel storage
        (svgFile (some storage) pfx maxNbChars wrap contentOpt kwargsRaw nonce
          randomText render st).fst.path = true) ∧
    (∀ (rootPathOpt : Option String) (relPath : String) (pfx : Option String)
        (dataColumnsOpt : Option (List (String × String))) (numRows : Nat)
        (contentOpt : Option String) (kw1 kw2 : Option BaseStorage)
        (nonce : Nat) (jsonFn : Nat → List (String × String) → Nat → String)
        (odsExport : String → Bytes) (st : State),
      odsFile rootPathOpt relPath pfx dataColumnsOpt numRows contentOpt kw1
          nonce jsonFn odsExport st =
        odsFile rootPathOpt relPath pfx dataColumnsOpt numRows contentOpt kw2
          nonce jsonFn odsExport st ∧
      (odsFile rootPathOpt relPath pfx dataColumnsOpt numRows contentOpt kw1
          nonce jsonFn odsExport st).snd.backends = st.backends ∧
      (odsFile rootPathOpt relPath pfx dataColumnsOpt numRows contentOpt kw1
          nonce jsonFn odsExport st).snd.localExistsRel
        (odsFile rootPathOpt relPath pfx dataColumnsOpt numRows contentOpt kw1
          nonce jsonFn odsExport st).fst.path = true) := by
  refine ⟨?_, ?_, ?_, ?_⟩
  · intro pfx maxNbChars wrap contentOpt kwargsRaw nonce randomText render st
    exact ⟨rfl, rfl, rfl, rfl⟩
  · intro storage pfx maxNbChars wrap contentOpt nonce randomText render st
    constructor <;>
      simp [jpegFile, webpFile, imageFile, State.writeBytes, State.existsRel,
        State.backendTable, bget_bwrite_self, twrite, List.any_cons]
  · intro storage pfx maxNbChars wrap contentOpt kwargsRaw nonce randomText
      render st
    constructor <;>
      simp [icoFile, svgFile, State.writeBytes, State.existsRel,
        State.backendTable, bget_bwrite_self, twrite, List.any_cons]
  · intro rootPathOpt relPath pfx dataColumnsOpt numRows contentOpt kw1 kw2
      nonce jsonFn odsExport st
    refine ⟨rfl, ?_, ?_⟩ <;>
      cases contentOpt <;>
        simp [odsFile, State.localExistsRel, twrite, List.any_cons]

/-- Claim C6: evaluation of the code at the failing input of the claim.  The
raw test passes `raw=True` to every provider and asserts the returned
artifact is a byte string; `jpeg_file` honours it and returns a
`BytesValue`, but `ico_file` silently absorbs `raw=True` in `**kwargs`
and still returns a `StringValue` (a `str`, not `bytes`), so the call
does not produce the claimed `BytesValue`. -/
theorem claim_C6_raw_divergence :
    (icoCallArtifact (some defaultFileSystemStorage) none 10 none
        (some "Lorem ipsum") true 0 (fun _ _ => "t") (fun _ => [1])
        st0).isBytes = false ∧
    (jpegFile (some defaultFileSystemStorage) none 10 none
        (some "Lorem ipsum") true 0 (fun _ _ => "t") (fun _ => [1])
        st0).fst.isBytes = true :=
  ⟨rfl, rfl⟩

/-- Claim C7 counterexample: the claim says the result of any provider call
does not depend on which provider calls were made before it.  Here the
very same `ods_file` call (all options at their defaults) produces
different content when another `ods_file` call precedes it, because the
content is drawn from the module-level shared `FAKER` instance whose
PRNG state the first call advanced. -/
theorem claim_C7_counterexample :
    (odsDefaultRun (odsDefaultRun st0).snd).fst.data ≠
      (odsDefaultRun st0).fst.data := by
  decide

/-- Claim C7 amended: calls are synchronous and single-threaded, but the
module-level `FAKER` instance of ods_file.py is a shared mutable
resource spanning calls: an `ods_file` call generating its content
through it depends on the shared PRNG state earlier calls advanced.
Calls that do not consume that shared state are independent of the
preceding calls: the artifacts returned by `ico_file`, `svg_file`,
`jpeg_file` and `webp_file` (for any `raw` setting), and by `ods_file`
with explicit content, are the same whatever state the call runs in, and
`ods_file` with explicit content leaves the shared PRNG state
untouched. -/
theorem claim_C7_independence_amended :
    (∀ (storageOpt : Option BaseStorage) (pfx : Option String)
        (maxNbChars : Nat) (wrap : Option Nat) (contentOpt : Option String)
        (kwargsRaw : Bool) (nonce : Nat)
        (randomText : Nat → Option Nat → String) (render : String → Bytes)
        (st1 st2 : State),
      (icoFile storageOpt pfx maxNbChars wrap contentOpt kwargsRaw nonce
          randomText render st1).fst =
        (icoFile storageOpt pfx maxNbChars wrap contentOpt kwargsRaw nonce
          randomText render st2).fst ∧
      (svgFile storageOpt pfx maxNbChars wrap contentOpt kwargsRaw nonce
          randomText render st1).fst =
        (svgFile storageOpt pfx maxNbChars wrap contentOpt kwargsRaw nonce
          randomText render st2).fst) ∧
    (∀ (storageOpt : Option BaseStorage) (pfx : Option String)
        (maxNbChars : Nat) (wrap : Option Nat) (contentOpt : Option String)
        (raw : Bool) (nonce : Nat)
        (randomText : Nat → Option Nat → String) (render : String → Bytes)
        (st1 st2 : State),
      (jpegFile storageOpt pfx maxNbChars wrap contentOpt raw nonce
          randomText render st1).fst =
        (jpegFile storageOpt pfx maxNbChars wrap contentOpt raw nonce
          randomText render st2).fst ∧
      (webpFile storageOpt pfx maxNbChars wrap contentOpt raw nonce
          randomText render st1).fst =
        (webpFile storageOpt pfx maxNbChars wrap contentOpt raw nonce
          randomText render st2).fst) ∧
    (∀ (rootPathOpt : Option String) (relPath : String) (pfx : Option String)
        (dataColumnsOpt : Option (List (String × String))) (numRows : Nat)
        (c : String) (kw : Option BaseStorage) (nonce : Nat)
        (jsonFn : Nat → List (String × String) → Nat → String)
        (odsExport : String → Bytes) (st1 st2 : State),
      (odsFile rootPathOpt relPath pfx dataColumnsOpt numRows (some c) kw
          nonce jsonFn odsExport st1).fst =
        (odsFile rootPathOpt relPath pfx dataColumnsOpt numRows (some c) kw
          nonce jsonFn odsExport st2).fst ∧
      (odsFile rootPathOpt relPath pfx dataColumnsOpt numRows (some c) kw
          nonce jsonFn odsExport st1).snd.fakerSeed = st1.fakerSeed) := by
  refine ⟨?_, ?_, ?_⟩
  · intro storageOpt pfx maxNbChars wrap contentOpt kwargsRaw nonce
      randomText render st1 st2
    exact ⟨rfl, rfl⟩
  · intro storageOpt pfx maxNbChars wrap contentOpt raw nonce randomText
      render st1 st2
    cases raw <;> exact ⟨rfl, rfl⟩
  · intro rootPathOpt relPath pfx dataColumnsOpt numRows c kw nonce jsonFn
      odsExport st1 st2
    exact ⟨rfl, rfl⟩

/-- Claim C1 counterexample: the claim says every file provider method
stores the generated file at the location determined by the chosen
storage backend and that the file exists in the storage after the call.
At this concrete `ods_file` call with the cloud-like backend chosen (the
storage keyword the test suite passes), the chosen backend does not
contain the returned path: `ods_file` writes at the location its
`root_path`/`rel_path` arguments determine instead. -/
theorem claim_C1_counterexample :
    (odsFile none DEFAULT_REL_PATH (some "zzz") none 7 none
        (some pathyStorage) 1 jsonModel (fun _ => [2]) st0).snd.existsRel
      pathyStorage
      (odsFile none DEFAULT_REL_PATH (some "zzz") none 7 none
        (some pathyStorage) 1 jsonModel (fun _ => [2]) st0).fst.path =
      false := by
  decide

/-- Claim C1 amended: every provider method taking a storage parameter —
`ico_file`, `svg_file`, and the image-mixin providers `jpeg_file` and
`webp_file` when not asked for raw bytes — called with valid options
produces a non-empty file (whenever the external renderer yields
non-empty bytes) whose name carries the provider's declared extension,
stored through the chosen storage backend, and returns the relative path
of the generated file, which exists in that backend after the call;
`ods_file` produces such a file at the location determined by its
`root_path`/`rel_path` arguments on the local filesystem and returns its
relative path, which exists there. -/
theorem claim_C1_provider_output :
    (∀ (storageOpt : Option BaseStorage) (pfx : Option String)
        (maxNbChars : Nat) (wrap : Option Nat) (contentOpt : Option String)
        (kwargsRaw : Bool) (nonce : Nat)
        (randomText : Nat → Option Nat → String) (render : String → Bytes)
        (st : State), (∀ s, render s ≠ []) →
      ((storageOpt.getD defaultFileSystemStorage).generateFilename pfx
          IcoFileProvider.extension nonce).ext = IcoFileProvider.extension ∧
      (icoFile storageOpt pfx maxNbChars wrap contentOpt kwargsRaw nonce
          randomText render st).fst.path =
        ((storageOpt.getD defaultFileSystemStorage).generateFilename pfx
          IcoFileProvider.extension nonce).relpath ∧
      tget ((icoFile storageOpt pfx maxNbChars wrap contentOpt kwargsRaw nonce
            randomText render st).snd.backendTable
          (storageOpt.getD defaultFileSystemStorage))
          ((storageOpt.getD defaultFileSystemStorage).generateFilename pfx
            IcoFileProvider.extension nonce) =
        some (render ("<pre>" ++
          generateTextContent maxNbChars wrap contentOpt randomText ++
          "</pre>")) ∧
      render ("<pre>" ++
          generateTextContent maxNbChars wrap contentOpt randomText ++
          "</pre>") ≠ [] ∧
      (icoFile storageOpt pfx maxNbChars wrap contentOpt kwargsRaw nonce
          randomText render st).snd.existsRel
        (storageOpt.getD defaultFileSystemStorage)
        (icoFile storageOpt pfx maxNbChars wrap contentOpt kwargsRaw nonce
          randomText render st).fst.path = true) ∧
    (∀ (storageOpt : Option BaseStorage) (pfx : Option String)
        (maxNbChars : Nat) (wrap : Option Nat) (contentOpt : Option String)
        (kwargsRaw : Bool) (nonce : Nat)
        (randomText : Nat → Option Nat → String) (render : String → Bytes)
        (st : State), (∀ s, render s ≠ []) →
      ((storageOpt.getD defaultFileSystemStorage).generateFilename pfx
          SvgFileProvider.extension nonce).ext = SvgFileProvider.extension ∧
      (svgFile storageOpt pfx maxNbChars wrap contentOpt kwargsRaw nonce
          randomText render st).fst.path =
        ((storageOpt.getD defaultFileSystemStorage).generateFilename pfx
          SvgFileProvider.extension nonce).relpath ∧
      tget ((svgFile storageOpt pfx maxNbChars wrap contentOpt kwargsRaw nonce
            randomText render st).snd.backendTable
          (storageOpt.getD defaultFileSystemStorage))
          ((storageOpt.getD defaultFileSystemStorage).generateFilename pfx
            SvgFileProvider.extension nonce) =
        some (render ("<pre>" ++
          generateTextContent maxNbChars wrap contentOpt randomText ++
          "</pre>")) ∧
      render ("<pre>" ++
          generateTextContent maxNbChars wrap contentOpt randomText ++
          "</pre>") ≠ [] ∧
      (svgFile storageOpt pfx maxNbChars wrap contentOpt kwargsRaw nonce
          randomText render st).snd.existsRel
        (storageOpt.getD defaultFileSystemStorage)
        (svgFile storageOpt pfx maxNbChars wrap contentOpt kwargsRaw nonce
          randomText render st).fst.path = true) ∧
    (∀ (storageOpt : Option BaseStorage) (pfx : Option String)
        (maxNbChars : Nat) (wrap : Option Nat) (contentOpt : Option String)
        (nonce : Nat) (randomText : Nat → Option Nat → String)
        (render : String → Bytes) (st : State), (∀ s, render s ≠ []) →
      ((storageOpt.getD defaultFileSystemStorage).generateFilename pfx
          JpegFileProvider.extension nonce).ext = JpegFileProvider.extension ∧
      (jpegFile storageOpt pfx maxNbChars wrap contentOpt false nonce
          randomText render st).fst =
        FileValue.str
          ⟨((storageOpt.getD defaultFileSystemStorage).generateFilename pfx
              JpegFileProvider.extension nonce).relpath,
            generateTextContent maxNbChars wrap contentOpt randomText⟩ ∧
      tget ((jpegFile storageOpt pfx maxNbChars wrap contentOpt false nonce
            randomText render st).snd.backendTable
          (storageOpt.getD defaultFileSystemStorage))
          ((storageOpt.getD defaultFileSystemStorage).generateFilename pfx
            JpegFileProvider.extension nonce) =
        some (render
          (generateTextContent maxNbChars wrap contentOpt randomText)) ∧
      render (generateTextContent maxNbChars wrap contentOpt randomText) ≠
        [] ∧
      (jpegFile storageOpt pfx maxNbChars wrap contentOpt false nonce
          randomText render st).snd.existsRel
        (storageOpt.getD defaultFileSystemStorage)
        ((storageOpt.getD defaultFileSystemStorage).generateFilename pfx
          JpegFileProvider.extension nonce).relpath = true) ∧
    (∀ (storageOpt : Option BaseStorage) (pfx : Option String)
        (maxNbChars : Nat) (wrap : Option Nat) (contentOpt : Option String)
        (nonce : Nat) (randomText : Nat → Option Nat → String)
        (render : String → Bytes) (st : State), (∀ s, render s ≠ []) →
      ((storageOpt.getD defaultFileSystemStorage).generateFilename pfx
          WebpFileProvider.extension nonce).ext = WebpFileProvider.extension ∧
      (webpFile storageOpt pfx maxNbChars wrap contentOpt false nonce
          randomText render st).fst =
        FileValue.str
          ⟨((storageOpt.getD defaultFileSystemStorage).generateFilename pfx
              WebpFileProvider.extension nonce).relpath,
            generateTextContent maxNbChars wrap contentOpt randomText⟩ ∧
      tget ((webpFile storageOpt pfx maxNbChars wrap contentOpt false nonce
            randomText render st).snd.backendTable
          (storageOpt.getD defaultFileSystemStorage))
          ((storageOpt.getD defaultFileSystemStorage).generateFilename pfx
            WebpFileProvider.extension nonce) =
        some (render
          (generateTextContent maxNbChars wrap contentOpt randomText)) ∧
      render (generateTextContent maxNbChars wrap contentOpt randomText) ≠
        [] ∧
      (webpFile storageOpt pfx maxNbChars wrap contentOpt false nonce
          randomText render st).snd.existsRel
        (storageOpt.getD defaultFileSystemStorage)
        ((storageOpt.getD defaultFileSystemStorage).generateFilename pfx
          WebpFileProvider.extension nonce).relpath = true) ∧
    (∀ (rootPathOpt : Option String) (relPath : String) (pfx : Option String)
        (dataColumnsOpt : Option (List (String × String))) (numRows : Nat)
        (contentOpt : Option String) (kw : Option BaseStorage) (nonce : Nat)
        (jsonFn : Nat → List (String × String) → Nat → String)
        (odsExport : String → Bytes) (st : State),
        (∀ s, odsExport s ≠ []) →
      (generateFilenameLocal rootPathOpt relPath pfx OdsFileProvider.extension
          nonce).ext = OdsFileProvider.extension ∧
      (odsFile rootPathOpt relPath pfx dataColumnsOpt numRows contentOpt kw
          nonce jsonFn odsExport st).fst.path =
        (generateFilenameLocal rootPathOpt relPath pfx
          OdsFileProvider.extension nonce).relpath ∧
      tget (odsFile rootPathOpt relPath pfx dataColumnsOpt numRows contentOpt
            kw nonce jsonFn odsExport st).snd.localFS
          (generateFilenameLocal rootPathOpt relPath pfx
            OdsFileProvider.extension nonce) =
        some (odsExport (odsFile rootPathOpt relPath pfx dataColumnsOpt
          numRows contentOpt kw nonce jsonFn odsExport st).fst.data) ∧
      odsExport (odsFile rootPathOpt relPath pfx dataColumnsOpt numRows
          contentOpt kw nonce jsonFn odsExport st).fst.data ≠ [] ∧
      (odsFile rootPathOpt relPath pfx dataColumnsOpt numRows contentOpt kw
          nonce jsonFn odsExport st).snd.localExistsRel
        (odsFile rootPathOpt relPath pfx dataColumnsOpt numRows contentOpt kw
          nonce jsonFn odsExport st).fst.path = true) := by
  refine ⟨?_, ?_, ?_, ?_, ?_⟩
  · intro storageOpt pfx maxNbChars wrap contentOpt kwargsRaw nonce
      randomText render st h
    refine ⟨rfl, rfl, ?_, h _, ?_⟩ <;>
      simp [icoFile, State.writeBytes, State.backendTable, State.existsRel,
        bget_bwrite_self, tget, twrite, List.any_cons]
  · intro storageOpt pfx maxNbChars wrap contentOpt kwargsRaw nonce
      randomText render st h
    refine ⟨rfl, rfl, ?_, h _, ?_⟩ <;>
      simp [svgFile, State.writeBytes, State.backendTable, State.existsRel,
        bget_bwrite_self, tget, twrite, List.any_cons]
  · intro storageOpt pfx maxNbChars wrap contentOpt nonce randomText render
      st h
    refine ⟨rfl, rfl, ?_, h _, ?_⟩ <;>
      simp [jpegFile, imageFile, State.writeBytes, State.backendTable,
        State.existsRel, bget_bwrite_self, tget, twrite, List.any_cons]
  · intro storageOpt pfx maxNbChars wrap contentOpt nonce randomText render
      st h
    refine ⟨rfl, rfl, ?_, h _, ?_⟩ <;>
      simp [webpFile, imageFile, State.writeBytes, State.backendTable,
        State.existsRel, bget_bwrite_self, tget, twrite, List.any_cons]
  · intro rootPathOpt relPath pfx dataColumnsOpt numRows contentOpt kw nonce
      jsonFn odsExport st h
    refine ⟨rfl, ?_, ?_, h _, ?_⟩ <;>
      cases contentOpt <;>
        simp [odsFile, State.localExistsRel, tget, twrite, List.any_cons]

/-- Claim C1 witness: a concrete `ico_file` call against the cloud-like
backend, a concrete `jpeg_file` call against the default backend, and a
concrete `ods_file` call, each with a renderer producing non-empty
bytes. -/
theorem claim_C1_witness :
    (icoFile (some pathyStorage) none 10 none (some "hi") false 0
        (fun _ _ => "t") (fun _ => [7]) st0).snd.existsRel pathyStorage
      (icoFile (some pathyStorage) none 10 none (some "hi") false 0
        (fun _ _ => "t") (fun _ => [7]) st0).fst.path = true ∧
    (jpegFile (some defaultFileSystemStorage) none 10 none (some "hi") false
        0 (fun _ _ => "t") (fun _ => [8]) st0).snd.existsRel
      defaultFileSystemStorage
      (defaultFileSystemStorage.generateFilename none
        JpegFileProvider.extension 0).relpath = true ∧
    tget (odsFile none DEFAULT_REL_PATH none none 10 (some "hi") none 0
          jsonModel (fun _ => [9]) st0).snd.localFS
        (generateFilenameLocal none DEFAULT_REL_PATH none
          OdsFileProvider.extension 0) =
      some [9] :=
  ⟨(claim_C1_provider_output.1 (some pathyStorage) none 10 none (some "hi")
      false 0 (fun _ _ => "t") (fun _ => [7]) st0
      (fun s => by simp)).2.2.2.2,
    (claim_C1_provider_output.2.2.1 (some defaultFileSystemStorage) none 10
      none (some "hi") 0 (fun _ _ => "t") (fun _ => [8]) st0
      (fun s => by simp)).2.2.2.2,
    (claim_C1_provider_output.2.2.2.2 none DEFAULT_REL_PATH none none 10
      (some "hi") none 0 jsonModel (fun _ => [9]) st0
      (fun s => by simp)).2.2.1⟩

/-- Claim C10: for every `ods_file` call, explicit content is loaded and
exported as-is and the `data_columns` and `num_rows` arguments have no
effect on the produced file; with no content and falsy `data_columns`
(absent or an empty dict) the default columns (name and residency) are
used to generate `num_rows` rows of JSON content through the shared
faker; and in every case the returned `StringValue` records under
`data["content"]` exactly the content the written file was exported
from. -/
theorem claim_C10_ods_content :
    (∀ (rootPathOpt : Option String) (relPath : String) (pfx : Option String)
        (cols1 cols2 : Option (List (String × String))) (rows1 rows2 : Nat)
        (c : String) (kw : Option BaseStorage) (nonce : Nat)
        (jsonFn : Nat → List (String × String) → Nat → String)
        (odsExport : String → Bytes) (st : State),
      odsFile rootPathOpt relPath pfx cols1 rows1 (some c) kw nonce jsonFn
          odsExport st =
        odsFile rootPathOpt relPath pfx cols2 rows2 (some c) kw nonce jsonFn
          odsExport st ∧
      (odsFile rootPathOpt relPath pfx cols1 rows1 (some c) kw nonce jsonFn
          odsExport st).fst.data = c) ∧
    (∀ (rootPathOpt : Option String) (relPath : String) (pfx : Option String)
        (dataColumnsOpt : Option (List (String × String))) (numRows : Nat)
        (kw : Option BaseStorage) (nonce : Nat)
        (jsonFn : Nat → List (String × String) → Nat → String)
        (odsExport : String → Bytes) (st : State),
      dataColumnsOpt = none ∨ dataColumnsOpt = some [] →
      (odsFile rootPathOpt relPath pfx dataColumnsOpt numRows none kw nonce
          jsonFn odsExport st).fst.data =
        jsonFn st.fakerSeed defaultDataColumns numRows) ∧
    (∀ (rootPathOpt : Option String) (relPath : String) (pfx : Option String)
        (dataColumnsOpt : Option (List (String × String))) (numRows : Nat)
        (contentOpt : Option String) (kw : Option BaseStorage) (nonce : Nat)
        (jsonFn : Nat → List (String × String) → Nat → String)
        (odsExport : String → Bytes) (st : State),
      tget (odsFile rootPathOpt relPath pfx dataColumnsOpt numRows contentOpt
            kw nonce jsonFn odsExport st).snd.localFS
          (generateFilenameLocal rootPathOpt relPath pfx
            OdsFileProvider.extension nonce) =
        some (odsExport (odsFile rootPathOpt relPath pfx dataColumnsOpt
          numRows contentOpt kw nonce jsonFn odsExport st).fst.data)) := by
  refine ⟨?_, ?_, ?_⟩
  · intro rootPathOpt relPath pfx cols1 cols2 rows1 rows2 c kw nonce jsonFn
      odsExport st
    exact ⟨rfl, rfl⟩
  · intro rootPathOpt relPath pfx dataColumnsOpt numRows kw nonce jsonFn
      odsExport st h
    rcases h with h | h <;> subst h <;> simp [odsFile]
  · intro rootPathOpt relPath pfx dataColumnsOpt numRows contentOpt kw nonce
      jsonFn odsExport st
    cases contentOpt <;> simp [odsFile, tget_twrite_self]

/-- Claim C10 witness: the default `ods_file` call (no content, no columns)
records the shared faker's JSON over the default columns. -/
theorem claim_C10_witness :
    (odsFile none DEFAULT_REL_PATH none none 5 none none 0 jsonModel
        (fun _ => [1]) st0).fst.data =
      jsonModel 0 defaultDataColumns 5 :=
  claim_C10_ods_content.2.1 none DEFAULT_REL_PATH none none 5 none 0
    jsonModel (fun _ => [1]) st0 (Or.inl rfl)

mutual

theorem runInner_invocations (zipLib tarLib : List (GenName × Bytes) → Bytes) :
    ∀ (fn : InnerFn) (ctr : Nat) (st : State),
      (runInner zipLib tarLib fn ctr st).snd.snd.invocations =
        st.invocations + innerCost fn
  | .simple ext, ctr, st => by
      simp [runInner, innerCost]
  | .zipInner count inner, ctr, st => by
      have ih := runInnerTimes_invocations zipLib tarLib inner count (ctr + 1)
        { st with invocations := st.invocations + 1 }
      simp only [runInner, innerCost, ih]
      omega
  | .tarInner count inner, ctr, st => by
      have ih := runInnerTimes_invocations zipLib tarLib inner count (ctr + 1)
        { st with invocations := st.invocations + 1 }
      simp only [runInner, innerCost, ih]
      omega
  | .listOf fns, ctr, st => by
      have ih := runInnerList_invocations zipLib tarLib fns ctr st
      simpa [runInner, innerCost] using ih
  | .fuzzyChoice 0 [], ctr, st => by
      simp [runInner, innerCost]
  | .fuzzyChoice (p + 1) [], ctr, st => by
      simp [runInner, innerCost]
  | .fuzzyChoice 0 (c :: rest), ctr, st => by
      have ih := runInner_invocations zipLib tarLib c ctr st
      simpa [runInner, innerCost] using ih
  | .fuzzyChoice (p + 1) (c :: rest), ctr, st => by
      have ih := runInner_invocations zipLib tarLib (.fuzzyChoice p rest)
        ctr st
      simpa [runInner, innerCost] using ih

theorem runInnerTimes_invocations
    (zipLib tarLib : List (GenName × Bytes) → Bytes) :
    ∀ (fn : InnerFn) (n : Nat) (ctr : Nat) (st : State),
      (runInnerTimes zipLib tarLib fn n ctr st).snd.snd.invocations =
        st.invocations + n * innerCost fn
  | fn, 0, ctr, st => by
      simp [runInnerTimes]
  | fn, n + 1, ctr, st => by
      have ih1 := runInner_invocations zipLib tarLib fn ctr st
      have ih2 := runInnerTimes_invocations zipLib tarLib fn n
        (runInner zipLib tarLib fn ctr st).snd.fst
        (runInner zipLib tarLib fn ctr st).snd.snd
      simp only [runInnerTimes, ih2, ih1]
      ring

theorem runInnerList_invocations
    (zipLib tarLib : List (GenName × Bytes) → Bytes) :
    ∀ (fns : List InnerFn) (ctr : Nat) (st : State),
      (runInnerList zipLib tarLib fns ctr st).snd.snd.invocations =
        st.invocations + innerCostList fns
  | [], ctr, st => by
      simp [runInnerList, innerCostList]
  | fn :: rest, ctr, st => by
      have ih1 := runInner_invocations zipLib tarLib fn ctr st
      have ih2 := runInnerList_invocations zipLib tarLib rest
        (runInner zipLib tarLib fn ctr st).snd.fst
        (runInner zipLib tarLib fn ctr st).snd.snd
      simp only [runInnerList, innerCostList, ih2, ih1]
      ring

end

/-- Claim C8: the nested archive population is recursively invoked a bounded
number of times per archive: an archive call whose options give a count
and an inner-file function performs exactly `count * innerCost innerFn`
inner provider invocations — a finite number computed from the options —
and the call terminates (the run functions are total by structural
recursion over the inner-file composition). -/
theorem claim_C8_bounded_recursion :
    ∀ (emlLib zipLib tarLib : List (GenName × Bytes) → Bytes)
      (storageOpt : Option BaseStorage) (pfx : Option String)
      (opts : ArchiveOptions) (nonce : Nat) (st : State),
      (zipFile zipLib tarLib storageOpt pfx opts nonce st).snd.invocations =
        st.invocations + opts.count * innerCost opts.innerFn ∧
      (tarFile zipLib tarLib storageOpt pfx opts nonce st).snd.invocations =
        st.invocations + opts.count * innerCost opts.innerFn ∧
      (emlFile emlLib zipLib tarLib storageOpt pfx opts nonce
          st).snd.invocations =
        st.invocations + opts.count * innerCost opts.innerFn := by
  intro emlLib zipLib tarLib storageOpt pfx opts nonce st
  refine ⟨?_, ?_, ?_⟩ <;>
    simp [zipFile, tarFile, emlFile, containerFile, State.writeBytes,
      runInnerTimes_invocations]

/-- Claim C2: every container provider (`zip_file`, `tar_file`, `eml_file`)
with an options dictionary supplying a `create_inner_file_func` —
including `list_create_inner_file`, `fuzzy_choice_create_inner_file` and
recursively nested `create_inner_zip_file`/`create_inner_tar_file`, all
covered by the quantification over `InnerFn` inside `ArchiveOptions` —
produces a container packed from exactly the inner files those functions
produce, and the container file exists in the storage after the call. -/
theorem claim_C2_container_population :
    ∀ (emlLib zipLib tarLib : List (GenName × Bytes) → Bytes)
      (storageOpt : Option BaseStorage) (pfx : Option String)
      (opts : ArchiveOptions) (nonce : Nat) (st : State),
      (zipFile zipLib tarLib storageOpt pfx opts nonce st).snd.existsRel
        (storageOpt.getD defaultFileSystemStorage)
        (zipFile zipLib tarLib storageOpt pfx opts nonce st).fst.path =
        true ∧
      tget ((zipFile zipLib tarLib storageOpt pfx opts nonce
            st).snd.backendTable (storageOpt.getD defaultFileSystemStorage))
          ((storageOpt.getD defaultFileSystemStorage).generateFilename pfx
            "zip" nonce) =
        some (zipLib
          (runInnerTimes zipLib tarLib opts.innerFn opts.count 0 st).fst) ∧
      (tarFile zipLib tarLib storageOpt pfx opts nonce st).snd.existsRel
        (storageOpt.getD defaultFileSystemStorage)
        (tarFile zipLib tarLib storageOpt pfx opts nonce st).fst.path =
        true ∧
      tget ((tarFile zipLib tarLib storageOpt pfx opts nonce
            st).snd.backendTable (storageOpt.getD defaultFileSystemStorage))
          ((storageOpt.getD defaultFileSystemStorage).generateFilename pfx
            "tar" nonce) =
        some (tarLib
          (runInnerTimes zipLib tarLib opts.innerFn opts.count 0 st).fst) ∧
      (emlFile emlLib zipLib tarLib storageOpt pfx opts nonce
          st).snd.existsRel (storageOpt.getD defaultFileSystemStorage)
        (emlFile emlLib zipLib tarLib storageOpt pfx opts nonce st).fst.path =
        true ∧
      tget ((emlFile emlLib zipLib tarLib storageOpt pfx opts nonce
            st).snd.backendTable (storageOpt.getD defaultFileSystemStorage))
          ((storageOpt.getD defaultFileSystemStorage).generateFilename pfx
            "eml" nonce) =
        some (emlLib
          (runInnerTimes zipLib tarLib opts.innerFn opts.count 0 st).fst) := by
  intro emlLib zipLib tarLib storageOpt pfx opts nonce st
  refine ⟨?_, ?_, ?_, ?_, ?_, ?_⟩ <;>
    simp [zipFile, tarFile, emlFile, containerFile, State.writeBytes,
      State.existsRel, State.backendTable, bget_bwrite_self, tget, twrite,
      List.any_cons]

/-- Claim C3: for the providers with a pluggable generator backend, passing
the generator class resolved by its dotted-path string produces exactly
the same behaviour as passing the class object directly: whenever the
path resolves to the class, the name-based call and the direct-reference
call are equal (same result, same errors, same storage effects). -/
theorem claim_C3_generator_resolution :
    (∀ (reg : List (String × PdfGenerator)) (p : String) (c : PdfGenerator)
        (storageOpt : Option BaseStorage) (pfx : Option String)
        (maxNbChars : Nat) (wrap : Option Nat) (contentOpt : Option String)
        (nonce : Nat) (randomText : Nat → Option Nat → String) (st : State),
      load_class_from_path reg p = Except.ok c →
      pdfFile reg (Sum.inr p) storageOpt pfx maxNbChars wrap contentOpt
          nonce randomText st =
        pdfFile reg (Sum.inl c) storageOpt pfx maxNbChars wrap contentOpt
          nonce randomText st) ∧
    (∀ (reg : List (String × Mp3Generator)) (p : String) (c : Mp3Generator)
        (storageOpt : Option BaseStorage) (pfx : Option String)
        (maxNbChars : Nat) (wrap : Option Nat) (contentOpt : Option String)
        (nonce : Nat) (randomText : Nat → Option Nat → String) (st : State),
      load_class_from_path reg p = Except.ok c →
      mp3File reg (Sum.inr p) storageOpt pfx maxNbChars wrap contentOpt
          nonce randomText st =
        mp3File reg (Sum.inl c) storageOpt pfx maxNbChars wrap contentOpt
          nonce randomText st) := by
  constructor <;>
    · intro reg p c storageOpt pfx maxNbChars wrap contentOpt nonce
        randomText st h
      simp [pdfFile, mp3File, resolveGenerator, h]

/-- Claim C3 witness: a concrete registry in which the dotted path resolves
to the concrete generator class; the name-based and direct calls agree
for both the PDF and the MP3 provider. -/
theorem claim_C3_witness :
    pdfFile pdfRegModel (Sum.inr "pkg.Gen") (some defaultFileSystemStorage)
        none 10 none (some "x") 0 (fun _ _ => "t") st0 =
      pdfFile pdfRegModel (Sum.inl pdfGenModel)
        (some defaultFileSystemStorage) none 10 none (some "x") 0
        (fun _ _ => "t") st0 ∧
    mp3File mp3RegModel (Sum.inr "pkg.Gen") (some defaultFileSystemStorage)
        none 10 none (some "x") 0 (fun _ _ => "t") st0 =
      mp3File mp3RegModel (Sum.inl mp3GenModel)
        (some defaultFileSystemStorage) none 10 none (some "x") 0
        (fun _ _ => "t") st0 :=
  ⟨claim_C3_generator_resolution.1 pdfRegModel "pkg.Gen" pdfGenModel
      (some defaultFileSystemStorage) none 10 none (some "x") 0
      (fun _ _ => "t") st0 (by simp [pdfRegModel, load_class_from_path]),
    claim_C3_generator_resolution.2 mp3RegModel "pkg.Gen" mp3GenModel
      (some defaultFileSystemStorage) none 10 none (some "x") 0
      (fun _ _ => "t") st0 (by simp [mp3RegModel, load_class_from_path])⟩

/-- Claim C4: the library's own error taxonomy is exactly the two cases the
claim lists: an abstract base generator class (one that does not
override generation) makes the provider raise NotImplementedError, and a
dotted path that fails to resolve raises ImportError; any other error is
the exception of the underlying converter library propagated unchanged,
with no retry and no partial-failure handling. -/
theorem claim_C4_error_taxonomy :
    (∀ (reg : List (String × Mp3Generator)) (cls : Mp3Generator)
        (storageOpt : Option BaseStorage) (pfx : Option String)
        (maxNbChars : Nat) (wrap : Option Nat) (contentOpt : Option String)
        (nonce : Nat) (randomText : Nat → Option Nat → String) (st : State),
      cls.isAbstract = true →
      mp3File reg (Sum.inl cls) storageOpt pfx maxNbChars wrap contentOpt
          nonce randomText st =
        Except.error FakerFileError.notImplemented) ∧
    (∀ (reg : List (String × PdfGenerator)) (cls : PdfGenerator)
        (storageOpt : Option BaseStorage) (pfx : Option String)
        (maxNbChars : Nat) (wrap : Option Nat) (contentOpt : Option String)
        (nonce : Nat) (randomText : Nat → Option Nat → String) (st : State),
      cls.isAbstract = true →
      pdfFile reg (Sum.inl cls) storageOpt pfx maxNbChars wrap contentOpt
          nonce randomText st =
        Except.error FakerFileError.notImplemented) ∧
    (∀ (reg : List (String × Mp3Generator)) (p : String) (m : String)
        (storageOpt : Option BaseStorage) (pfx : Option String)
        (maxNbChars : Nat) (wrap : Option Nat) (contentOpt : Option String)
        (nonce : Nat) (randomText : Nat → Option Nat → String) (st : State),
      load_class_from_path reg p = Except.error m →
      mp3File reg (Sum.inr p) storageOpt pfx maxNbChars wrap contentOpt
          nonce randomText st =
        Except.error (FakerFileError.importError m)) ∧
    (∀ (reg : List (String × Mp3Generator)) (cls : Mp3Generator) (e : String)
        (storageOpt : Option BaseStorage) (pfx : Option String)
        (maxNbChars : Nat) (wrap : Option Nat) (contentOpt : Option String)
        (nonce : Nat) (randomText : Nat → Option Nat → String) (st : State),
      cls.isAbstract = false →
      cls.generate (generateTextContent maxNbChars wrap contentOpt
          randomText) = Except.error e →
      mp3File reg (Sum.inl cls) storageOpt pfx maxNbChars wrap contentOpt
          nonce randomText st =
        Except.error (FakerFileError.external e)) := by
  refine ⟨?_, ?_, ?_, ?_⟩
  · intro reg cls storageOpt pfx maxNbChars wrap contentOpt nonce randomText
      st h
    simp [mp3File, resolveGenerator, h]
  · intro reg cls storageOpt pfx maxNbChars wrap contentOpt nonce randomText
      st h
    simp [pdfFile, resolveGenerator, h]
  · intro reg p m storageOpt pfx maxNbChars wrap contentOpt nonce randomText
      st h
    simp [mp3File, resolveGenerator, h]
  · intro reg cls e storageOpt pfx maxNbChars wrap contentOpt nonce
      randomText st h1 h2
    simp [mp3File, resolveGenerator, h1, h2]

/-- Claim C4 witness: the abstract base MP3 and PDF generator classes raise
NotImplementedError, a dotted path with no importable class raises
ImportError, and a concrete generator whose text-to-speech backend
raises has that exception propagated unchanged. -/
theorem claim_C4_witness :
    mp3File [] (Sum.inl mp3BaseModel) (some defaultFileSystemStorage) none
        10 none (some "x") 0 (fun _ _ => "t") st0 =
      Except.error FakerFileError.notImplemented ∧
    pdfFile [] (Sum.inl pdfBaseModel) (some defaultFileSystemStorage) none
        10 none (some "x") 0 (fun _ _ => "t") st0 =
      Except.error FakerFileError.notImplemented ∧
    mp3File [] (Sum.inr "faker_file.providers.does_not_exist.MyClass")
        (some defaultFileSystemStorage) none 10 none (some "x") 0
        (fun _ _ => "t") st0 =
      Except.error (FakerFileError.importError
        "cannot import faker_file.providers.does_not_exist.MyClass") ∧
    mp3File [] (Sum.inl mp3FailModel) (some defaultFileSystemStorage) none
        10 none (some "x") 0 (fun _ _ => "t") st0 =
      Except.error (FakerFileError.external "gtts boom") :=
  ⟨claim_C4_error_taxonomy.1 [] mp3BaseModel (some defaultFileSystemStorage)
      none 10 none (some "x") 0 (fun _ _ => "t") st0 rfl,
    claim_C4_error_taxonomy.2.1 [] pdfBaseModel
      (some defaultFileSystemStorage) none 10 none (some "x") 0
      (fun _ _ => "t") st0 rfl,
    claim_C4_error_taxonomy.2.2.1 []
      "faker_file.providers.does_not_exist.MyClass"
      "cannot import faker_file.providers.does_not_exist.MyClass"
      (some defaultFileSystemStorage) none 10 none (some "x") 0
      (fun _ _ => "t") st0 rfl,
    claim_C4_error_taxonomy.2.2.2 [] mp3FailModel "gtts boom"
      (some defaultFileSystemStorage) none 10 none (some "x") 0
      (fun _ _ => "t") st0 rfl rfl⟩

end FakerFile
